import Mathlib

/-!
# Verification of the Wordle streak tracker (hax429/wordle)

Shallow embedding of the message-parsing and ingestion core of the
repository, together with the query-layer aggregation functions that the
design claims talk about.

Conventions of the embedding:
* Python strings are modelled as `List Char` (Unicode code points, which is
  what Python 3 strings are).
* Python's `re` scanning is modelled by faithful recursive scanners; where
  a regex's backtracking is provably irrelevant (greedy `\s*` followed by a
  non-whitespace-only continuation, `\d+` followed by a literal space) the
  scanner implements the unique viable alternative.  `\d` is modelled as
  ASCII digits and `\s` as ASCII whitespace; none of the inputs the claims
  are about contain non-ASCII digits or exotic whitespace.
* SQLite tables are modelled as lists of rows.  The `users` table maps
  usernames to surrogate integer ids bijectively (`username` is `UNIQUE`),
  so `results` rows are keyed here directly by username instead of by the
  surrogate id.  `CURRENT_TIMESTAMP` defaults are passed in explicitly.
* A transaction is executed against a pending copy of the store; it is
  published only at the commit point.  Storage faults are modelled by an
  oracle `Nat → Bool` saying whether the k-th write statement of the
  transaction raises; an exception triggers the `except: rollback` path of
  the Python code, which returns the original store.
* Exact rational arithmetic (`ℚ`) stands in for Python floats; the means
  computed here are of small integers, where float rounding is not what any
  claim is about.
-/

/-! ## Score lexicon (src/utils/common.py, `WordleCommon.score_to_numeric`) -/

/-- Value of a run of ASCII digits, as Python `int()` computes it on the
validated score tokens. -/
def pyIntOfDigits (s : String) : Nat :=
  s.toList.foldl (fun n c => 10 * n + (c.toNat - '0'.toNat)) 0

/-- Embedding of `score_to_numeric` from `src/utils/common.py` (line 39-41):
`7 if score == 'X' else int(score)`.  Call sites only pass the validated
tokens `"1".."6"` and `"X"`; for other strings Python's `int` would raise,
which no claim exercises. -/
def score_to_numeric (score : String) : Nat :=
  if score = "X" then 7 else pyIntOfDigits score

/-! ## Character helpers for the parser -/

/-- Python ASCII `\s` class: space, tab, newline, carriage return, form feed,
vertical tab. -/
def pyIsSpace (c : Char) : Bool :=
  c = ' ' || c = '\t' || c = '\n' || c = '\r' || c = '\x0b' || c = '\x0c'

/-- The score-token class `[1-6X]` of the Python regex. -/
def isScoreToken (c : Char) : Bool :=
  c = '1' || c = '2' || c = '3' || c = '4' || c = '5' || c = '6' || c = 'X'

/-- Numeric value of a run of ASCII digits, as Python `int()` computes it. -/
def digitsToNat (ds : List Char) : Nat :=
  ds.foldl (fun n c => 10 * n + (c.toNat - '0'.toNat)) 0

/-- Longest ASCII-digit prefix of a character list, with the remainder. -/
def takeDigits : List Char → List Char × List Char
  | [] => ([], [])
  | c :: cs =>
    if c.isDigit then
      let p := takeDigits cs
      (c :: p.1, p.2)
    else ([], c :: cs)

/-! ## Day-number marker (src/core/wordle_sqlite_tracker.py, lines 60-65)

`re.search(r'(\d+) day streak', message)`.  The pattern has no
`re.IGNORECASE` flag: the words `day streak` are matched case-sensitively.
`re.search` yields the leftmost position at which the pattern matches; at
such a position the greedy `\d+` can only take the entire digit run, since
the continuation starts with a space, which is not a digit. -/

/-- Does `r'(\d+) day streak'` match starting exactly at this position?
If so, return the day number `int(group(1))`. -/
def tryDayMarker (l : List Char) : Option Nat :=
  let p := takeDigits l
  if p.1.isEmpty then none
  else if " day streak".toList.isPrefixOf p.2 then some (digitsToNat p.1)
  else none

/-- Embedding of `re.search`: the match at the leftmost position where one exists. -/
def findStreakDay : List Char → Option Nat
  | [] => none
  | c :: cs =>
    match tryDayMarker (c :: cs) with
    | some n => some n
    | none => findStreakDay cs

/-- Modelled from the spec (for the refinement comparison of claim C4 only;
not code of the repository): a day-number marker of the shape
`<integer> day streak` that is case-insensitive on the word `streak`,
digits only for the number. -/
def ciPrefixOf : List Char → List Char → Bool
  | [], _ => true
  | _ :: _, [] => false
  | a :: as, b :: bs => (a.toLower = b.toLower) && ciPrefixOf as bs

/-- Modelled from the spec (claim C4's wording): match the marker at this
position with `streak` compared case-insensitively. -/
def tryDayMarkerCI (l : List Char) : Option Nat :=
  let p := takeDigits l
  if p.1.isEmpty then none
  else if " day ".toList.isPrefixOf p.2
          && ciPrefixOf "streak".toList (p.2.drop 5) then
    some (digitsToNat p.1)
  else none

/-- Modelled from the spec (claim C4's wording): first case-insensitive
marker wins. -/
def findStreakDayCI : List Char → Option Nat
  | [] => none
  | c :: cs =>
    match tryDayMarkerCI (c :: cs) with
    | some n => some n
    | none => findStreakDayCI cs

/-! ## Score-block scanner (src/core/wordle_sqlite_tracker.py, lines 67-105)

The source file's emoji are stored mojibake: every emoji in
`wordle_sqlite_tracker.py` is its UTF-8 byte sequence decoded as Mac Roman.
The "crown" literal inside `score_pattern` is therefore the four code
points `U+F8FF 'ü' 'ë' 'ë'` (bytes `EF A3 BF C3 BC C3 AB C3 AB` in the
file), not the crown emoji `U+1F451` that the sibling modules
`show_day.py` and `database_manager.py` print for winners.

The pattern is
`r'(CROWN\s*)?([1-6X])/6:\s*([^CROWN]*?)(?=(?:[1-6X]/6:|$))'`
scanned with `re.findall`. -/

/-- Code point `U+F8FF`, the private-use code point produced by decoding `0xF0` as
Mac Roman. -/
def crownChar0 : Char := Char.ofNat 0xF8FF

/-- The literal "crown" sequence inside group 1 of `score_pattern`. -/
def crownSeq : List Char := [crownChar0, 'ü', 'ë', 'ë']

/-- The character set of the negated class `[^CROWN]` in group 3. -/
def crownClass : List Char := [crownChar0, 'ü', 'ë']

/-- The lookahead `(?=(?:[1-6X]/6:|$))`.  In Python `$` matches at the end
of the string and also just before a newline that ends the string. -/
def blockBoundary (l : List Char) : Bool :=
  match l with
  | [] => true
  | ['\n'] => true
  | t :: '/' :: '6' :: ':' :: _ => isScoreToken t
  | _ => false

/-- The lazy group `([^CROWN]*?)` expanding until the lookahead holds:
returns the shortest crown-free prefix whose remainder satisfies the
lookahead, or `none` when a crown character is hit first (every longer
expansion is then impossible, and shorter whitespace for the preceding
greedy `\s*` only adds whitespace positions where the lookahead cannot
hold either). -/
def scanContent : List Char → Option (List Char × List Char)
  | [] => some ([], [])
  | c :: cs =>
    if blockBoundary (c :: cs) then some ([], c :: cs)
    else if crownClass.contains c then none
    else (scanContent cs).map fun p => (c :: p.1, p.2)

/-- Match `([1-6X])/6:\s*([^CROWN]*?)(?=...)` at this position: the score
token, the block content (group 3) and the remainder at the match end. -/
def matchScoreTail (l : List Char) : Option (Char × List Char × List Char) :=
  match l with
  | t :: '/' :: '6' :: ':' :: rest =>
    if isScoreToken t then
      (scanContent (rest.dropWhile pyIsSpace)).map fun p => (t, p.1, p.2)
    else none
  | _ => none

/-- Match the full `score_pattern` at this position.  The optional crown
group is tried first; when the crown literal is present but the rest of
the pattern fails, the crown-less alternative starts on `U+F8FF`, which is
not a score token, so it fails too. -/
def matchScoreBlock (l : List Char) :
    Option (Bool × Char × List Char × List Char) :=
  if crownSeq.isPrefixOf l then
    match matchScoreTail ((l.drop 4).dropWhile pyIsSpace) with
    | some (t, content, rest) => some (true, t, content, rest)
    | none => none
  else
    (matchScoreTail l).map fun p => (false, p.1, p.2.1, p.2.2)

/-- Embedding of the `re.findall` loop: emit the leftmost match, continue at its end.  Each
step either advances one character (no match here) or consumes at least
the four characters `t/6:` of a match, so `l.length + 1` units of fuel are
enough to reach the end of the input. -/
def findAllBlocks : Nat → List Char → List (Bool × Char × List Char)
  | 0, _ => []
  | _ + 1, [] => []
  | fuel + 1, c :: cs =>
    match matchScoreBlock (c :: cs) with
    | some (w, t, content, rest) => (w, t, content) :: findAllBlocks fuel rest
    | none => findAllBlocks fuel cs

/-! ## Username extraction inside a block (lines 75-100) -/

/-- Embedding of `usernames.split('@')`. -/
def splitOnAt (acc : List Char) : List Char → List (List Char)
  | [] => [acc.reverse]
  | c :: cs =>
    if c = '@' then acc.reverse :: splitOnAt [] cs
    else splitOnAt (c :: acc) cs

/-- The lookahead `(?=@|\d/6:|[A-Z]/6:|$)` of the inner
`re.match(r'([^@]*?)(?=@|\d/6:|[A-Z]/6:|$)', part)`.  (`[A-Z]` is ASCII
uppercase; the split segments contain no `@`, but the branch is kept for
faithfulness.) -/
def usernameBoundary (l : List Char) : Bool :=
  match l with
  | [] => true
  | ['\n'] => true
  | '@' :: _ => true
  | d :: '/' :: '6' :: ':' :: _ => d.isDigit || ('A' ≤ d && d ≤ 'Z')
  | _ => false

/-- The lazy `([^@]*?)` of the inner match: shortest prefix up to the
lookahead (the `$` branch always fires at the end, so the match always
succeeds). -/
def extractUsername : List Char → List Char
  | [] => []
  | c :: cs =>
    if usernameBoundary (c :: cs) then []
    else c :: extractUsername cs

/-- Python `str.strip()` on a character list. -/
def pyStrip (l : List Char) : List Char :=
  ((l.dropWhile pyIsSpace).reverse.dropWhile pyIsSpace).reverse

/-- The trailing-punctuation class of `re.sub(r'[,;.!?]+$', '', ...)`. -/
def isTrailPunct (c : Char) : Bool :=
  c = ',' || c = ';' || c = '.' || c = '!' || c = '?'

/-- Embedding of `re.sub(r'[,;.!?]+$', '', s)`: drop the maximal trailing run of the
punctuation class.  (The argument has already been stripped, so the
before-final-newline reading of `$` cannot apply.) -/
def dropTrailPunct (l : List Char) : List Char :=
  (l.reverse.dropWhile isTrailPunct).reverse

/-- One parsed result of `parse_message`. -/
structure ParsedResult where
  username : String
  score : String
  is_winner : Bool
deriving DecidableEq, Repr

/-- The dictionary returned by `parse_message`. -/
structure ParsedStreak where
  day : Nat
  results : List ParsedResult
deriving DecidableEq, Repr

/-- Lines 75-100: turn one `findall` tuple into its parsed results. -/
def processBlock (crown : Bool) (token : Char) (content : List Char) :
    List ParsedResult :=
  let parts := (splitOnAt [] content).drop 1
  parts.filterMap fun part =>
    let raw := pyStrip (extractUsername part)
    if raw.isEmpty then none
    else
      let clean := pyStrip (dropTrailPunct raw)
      if clean.isEmpty then none
      else some ⟨⟨clean⟩, String.singleton token, crown⟩

deriving instance DecidableEq for Except

/-- Embedding of `parse_message` (lines 58-105): raise `ValueError` when no day marker
exists, otherwise collect one result per surviving username per block. -/
def parse_message (message : String) : Except String ParsedStreak :=
  match findStreakDay message.toList with
  | none => .error "Could not find streak day in message"
  | some day =>
    let blocks := findAllBlocks (message.toList.length + 1) message.toList
    .ok ⟨day, (blocks.map fun b => processBlock b.1 b.2.1 b.2.2).flatten⟩

/-! ## Persistence store (src/core/wordle_sqlite_tracker.py, lines 18-56)

Tables as lists of rows.  `users` rows carry only the username here: ids
are surrogate and in bijection with usernames (`username TEXT UNIQUE NOT
NULL`), so `results` is keyed by `(streak_day, username)` exactly where
the schema keys it by `(streak_day, user_id)`. -/

/-- A row of `streaks(day UNIQUE NOT NULL, imported_at TIMESTAMP)`. -/
structure StreakRow where
  day : Nat
  imported_at : Nat
deriving DecidableEq, Repr

/-- A row of `results(streak_day, user_id, score, is_winner,
UNIQUE(streak_day, user_id))`, keyed by username (see module comment). -/
structure ResultRow where
  day : Nat
  username : String
  score : String
  is_winner : Bool
deriving DecidableEq, Repr

/-- The whole store. -/
structure DB where
  users : List String
  streaks : List StreakRow
  results : List ResultRow
deriving DecidableEq, Repr

/-- Does a `results` row sit on the given `(streak_day, user)` key? -/
def keyMatches (day : Nat) (u : String) (r : ResultRow) : Bool :=
  r.day = day && r.username = u

/-- `INSERT OR IGNORE INTO users (username)` (body of `add_user`,
lines 107-115): insert only when the `UNIQUE` username is absent. -/
def add_user (users : List String) (u : String) : List String :=
  if users.contains u then users else users ++ [u]

/-- `INSERT OR IGNORE INTO streaks (day)` (line 127): keep the existing
row — including its `imported_at` — when the `UNIQUE` day is present,
otherwise append a row stamped with the current time. -/
def insertStreakIgnore (streaks : List StreakRow) (day ts : Nat) :
    List StreakRow :=
  if streaks.any (fun s => s.day = day) then streaks
  else streaks ++ [⟨day, ts⟩]

/-- `INSERT OR REPLACE INTO results` (lines 134-137): delete any row that
conflicts on `UNIQUE(streak_day, user_id)`, then insert the new row. -/
def upsertResult (results : List ResultRow) (day : Nat) (u score : String)
    (w : Bool) : List ResultRow :=
  results.filter (fun r => !keyMatches day u r) ++ [⟨day, u, score, w⟩]

/-- One iteration of the `for result in parsed_data["results"]` loop
(lines 130-137): `add_user` then the result upsert, applied to the
pending transaction state. -/
def ingestResult (db : DB) (day : Nat) (r : ParsedResult) : DB :=
  { db with
    users := add_user db.users r.username
    results := upsertResult db.results day r.username r.score r.is_winner }

/-- Summary dictionary returned by `add_streak_data` (lines 145-149). -/
structure IngestSummary where
  day : Nat
  results_added : Nat
  users_in_day : List String
deriving DecidableEq, Repr

/-- Number of stored results whose `streak_day` is `day`:
`SELECT COUNT(*) FROM results WHERE streak_day = ?` (line 142). -/
def countResultsForDay (db : DB) (day : Nat) : Nat :=
  (db.results.filter (fun r => r.day = day)).length

/-- A storage-fault oracle: `oracle k = true` means the k-th write
statement of the running transaction raises (storage error or constraint
violation).  `noFault` is the normal run. -/
def noFault : Nat → Bool := fun _ => false

/-- The result-loop of the transaction: writes are numbered from `k`
(two writes per parsed result — the user insert and the result upsert);
a raise aborts the whole loop. -/
def runResultLoop (db : DB) (day : Nat) :
    List ParsedResult → (Nat → Bool) → Nat → Except Unit DB
  | [], _, _ => .ok db
  | r :: rest, oracle, k =>
    if oracle k then .error ()
    else
      let db1 := { db with users := add_user db.users r.username }
      if oracle (k + 1) then .error ()
      else
        let db2 := { db1 with
          results := upsertResult db1.results day r.username r.score
            r.is_winner }
        runResultLoop db2 day rest oracle (k + 2)

/-- Embedding of `add_streak_data` (lines 117-155).  `parse_message` runs
before the connection is opened, so a `ParseError` leaves the store
untouched.  The writes (streak-day insert is write 0) run inside one
transaction against a pending state; any raise takes the `except:
rollback` path, returning the original store with the error; otherwise
the pending state is committed and the summary is computed — its
`results_added` is the post-commit `COUNT(*)` for the day and its
`users_in_day` lists the parsed usernames. -/
def add_streak_data (db : DB) (message : String) (ts : Nat)
    (oracle : Nat → Bool) : DB × Except String IngestSummary :=
  match parse_message message with
  | .error e => (db, .error e)
  | .ok parsed =>
    if oracle 0 then (db, .error "storage error")
    else
      let p1 := { db with
        streaks := insertStreakIgnore db.streaks parsed.day ts }
      match runResultLoop p1 parsed.day parsed.results oracle 1 with
      | .error _ => (db, .error "storage error")
      | .ok p2 =>
        (p2, .ok ⟨parsed.day, countResultsForDay p2 parsed.day,
          parsed.results.map (fun r => r.username)⟩)

/-! ## Day deletion (src/core/database_manager.py, `delete_day`,
lines 230-288)

The confirmed path is modelled (the `confirm=False` branch only adds an
interactive prompt).  `get_day_details` returns `None` for an absent day,
in which case the function returns `False` without touching the store.
Otherwise both `DELETE` statements run inside `BEGIN TRANSACTION` /
`COMMIT`, with `ROLLBACK` on any exception; write 0 is the results
delete, write 1 the streaks delete. -/
def delete_day (db : DB) (day : Nat) (oracle : Nat → Bool) : DB × Bool :=
  if db.streaks.any (fun s => s.day = day) then
    if oracle 0 then (db, false)
    else
      let p1 := { db with
        results := db.results.filter (fun r => !(r.day = day)) }
      if oracle 1 then (db, false)
      else
        ({ p1 with streaks := p1.streaks.filter (fun s => !(s.day = day)) },
          true)
  else (db, false)

/-! ## Query-layer aggregation -/

/-- Rational mean of a list of naturals, `0` on the empty list — the
`statistics.mean(..) if .. else 0` idiom of the web app. -/
def meanOrZero (l : List Nat) : ℚ :=
  if l.length = 0 then 0 else ((l.sum : ℚ)) / (l.length : ℚ)

/-- Per-user `average_score` of `get_all_time_stats`
(src/web/wordle_stats_app.py, lines 48-56): the mean of
`score_to_numeric` over ALL of the user's score tokens, `X` included
(as 7). -/
def average_score (scores : List String) : ℚ :=
  meanOrZero (scores.map score_to_numeric)

/-- One result line of `show_day_data`: `(username, score, is_winner)`. -/
abbrev DayResult := String × String × Bool

/-- `successful_players` of `show_day_data` (line 97). -/
def show_day_successful (results : List DayResult) : Nat :=
  (results.filter (fun r => !(r.2.1 = "X"))).length

/-- `failed_players` of `show_day_data` (line 98): the separate failure
count. -/
def show_day_failed (results : List DayResult) : Nat :=
  (results.filter (fun r => r.2.1 = "X")).length

/-- Average score of `show_day_data` (lines 109-113): printed only when
a non-`X` result exists; the sum of the integer scores of the non-`X`
results divided by `successful_players`. -/
def show_day_avg (results : List DayResult) : Option ℚ :=
  if show_day_successful results > 0 then
    some ((((results.filter (fun r => !(r.2.1 = "X"))).map
      (fun r => pyIntOfDigits r.2.1)).sum : ℚ) /
      (show_day_successful results : ℚ))
  else none

/-- Gap list of `_calculate_streak_consistency`
(src/web/wordle_stats_app.py, lines 166-170): walk consecutive pairs of
the user's (sorted) played days and record `gap - 1` only when the
difference exceeds 1. -/
def computeGaps : List Int → List Int
  | [] => []
  | [_] => []
  | a :: b :: rest =>
    if b - a > 1 then (b - a - 1) :: computeGaps (b :: rest)
    else computeGaps (b :: rest)

/-- Rational mean of a list of integers, `0` on the empty list. -/
def meanIntOrZero (l : List Int) : ℚ :=
  if l.length = 0 then 0 else ((l.sum : ℚ)) / (l.length : ℚ)

/-- `consistency_score` (lines 172-173): `1 / (1 + avg_gap)` where
`avg_gap` is the mean of the recorded gaps, `0` when none were
recorded. -/
def consistency_score (days : List Int) : ℚ :=
  1 / (1 + meanIntOrZero (computeGaps days))

/-- Modelled from the spec (claim C8's wording, for comparison with the
code's `consistency_score` only): the average gap between consecutive
played day numbers — `d - 1` missed days for each consecutive-pair
difference `d`, averaged over ALL consecutive pairs; `0` for a
single-day (or empty) history. -/
def claimAvgGap (days : List Int) : ℚ :=
  meanIntOrZero ((days.zip days.tail).map (fun p => p.2 - p.1 - 1))

/-! ## Shared helper lemmas -/

/-- An upsert leaves exactly the new row on its own key. -/
theorem upsertResult_filter_key (rows : List ResultRow) (day : Nat)
    (u s : String) (w : Bool) :
    (upsertResult rows day u s w).filter (keyMatches day u) =
      [⟨day, u, s, w⟩] := by
  unfold upsertResult
  rw [List.filter_append, List.filter_filter]
  simp [keyMatches]

/-- With no storage fault, the result loop commits the fold of the
per-result ingestion steps. -/
theorem runResultLoop_noFault (rs : List ParsedResult) (db : DB) (day : Nat)
    (k : Nat) :
    runResultLoop db day rs noFault k =
      .ok (rs.foldl (fun d r => ingestResult d day r) db) := by
  induction rs generalizing db k with
  | nil => rfl
  | cons r rest ih =>
    simp only [runResultLoop, noFault, if_neg Bool.false_ne_true,
      List.foldl_cons]
    exact ih _ _

/-- The result loop never touches the `streaks` table. -/
theorem foldl_ingest_streaks (rs : List ParsedResult) (db : DB) (day : Nat) :
    (rs.foldl (fun d r => ingestResult d day r) db).streaks = db.streaks := by
  induction rs generalizing db with
  | nil => rfl
  | cons r rest ih =>
    simp only [List.foldl_cons]
    rw [ih]
    rfl

/-- The `results` table after the loop is the fold of the upserts. -/
theorem foldl_ingest_results (rs : List ParsedResult) (db : DB) (day : Nat) :
    (rs.foldl (fun d r => ingestResult d day r) db).results =
      rs.foldl
        (fun acc r => upsertResult acc day r.username r.score r.is_winner)
        db.results := by
  induction rs generalizing db with
  | nil => rfl
  | cons r rest ih =>
    simp only [List.foldl_cons]
    rw [ih]
    rfl

/-- Shape of a fault-free ingestion of a parseable message: the committed
store is the fold of the per-result steps over the store with the
streak-day ensured, and the summary fields are as built at lines 145-149. -/
theorem add_streak_data_noFault (db : DB) (msg : String) (ts : Nat)
    (parsed : ParsedStreak) (hp : parse_message msg = .ok parsed) :
    add_streak_data db msg ts noFault =
      (parsed.results.foldl (fun d r => ingestResult d parsed.day r)
          { db with streaks := insertStreakIgnore db.streaks parsed.day ts },
        .ok ⟨parsed.day,
          countResultsForDay
            (parsed.results.foldl (fun d r => ingestResult d parsed.day r)
              { db with
                streaks := insertStreakIgnore db.streaks parsed.day ts })
            parsed.day,
          parsed.results.map (fun r => r.username)⟩) := by
  simp only [add_streak_data, hp, noFault, if_neg Bool.false_ne_true,
    runResultLoop_noFault]

/-! ## Claim theorems -/

/-- C1.  For every stored state and every `(day, user)` pair, ingesting a
result for a pair that already has a Result replaces the prior Result
rather than erroring: afterwards exactly one Result for that pair exists
and it carries the newly ingested score and winner flag.  First part: the
`INSERT OR REPLACE` upsert leaves exactly the new row on the key,
whatever rows (zero, one, or more) were there — in particular it never
raises a uniqueness error.  Second part: the spec's own scenario run
end-to-end from an arbitrary store: ingest day 5 with Alice scoring "3",
then day 5 with Alice scoring "X"; the second ingestion succeeds and
exactly one `(5, Alice)` Result remains, carrying score "X". -/
theorem C1_last_write_wins :
    (∀ (rows : List ResultRow) (day : Nat) (u s : String) (w : Bool),
      (upsertResult rows day u s w).filter (keyMatches day u) =
        [⟨day, u, s, w⟩]) ∧
    (∀ db : DB,
      ((add_streak_data
          ((add_streak_data db "5 day streak\n3/6: @Alice" 100 noFault).1)
          "5 day streak\nX/6: @Alice" 200 noFault).2 =
        .ok ⟨5, countResultsForDay
          ((add_streak_data
            ((add_streak_data db "5 day streak\n3/6: @Alice" 100 noFault).1)
            "5 day streak\nX/6: @Alice" 200 noFault).1) 5, ["Alice"]⟩) ∧
      ((add_streak_data
          ((add_streak_data db "5 day streak\n3/6: @Alice" 100 noFault).1)
          "5 day streak\nX/6: @Alice" 200 noFault).1.results.filter
            (keyMatches 5 "Alice") =
        [⟨5, "Alice", "X", false⟩])) := by
  constructor
  · exact upsertResult_filter_key
  · intro db
    have h1 : parse_message "5 day streak\n3/6: @Alice" =
        .ok ⟨5, [⟨"Alice", "3", false⟩]⟩ := by decide
    have h2 : parse_message "5 day streak\nX/6: @Alice" =
        .ok ⟨5, [⟨"Alice", "X", false⟩]⟩ := by decide
    simp only [add_streak_data, h1, h2, noFault, if_neg Bool.false_ne_true,
      runResultLoop_noFault, List.foldl_cons, List.foldl_nil, ingestResult]
    refine ⟨rfl, ?_⟩
    exact upsertResult_filter_key _ 5 "Alice" "X" false

/-- C2.  Ingestion is all-or-nothing: whenever `add_streak_data` reports
an error — a parse failure before the transaction, or any write raising
inside it (storage error or constraint violation) — the store it returns
is exactly the store it was given, so none of the message's Results are
persisted and a day that had no StreakDay row before still has none. -/
theorem C2_rollback_all_or_nothing (db : DB) (msg : String) (ts : Nat)
    (oracle : Nat → Bool) (e : String)
    (h : (add_streak_data db msg ts oracle).2 = .error e) :
    (add_streak_data db msg ts oracle).1 = db ∧
    ∀ d : Nat, db.streaks.any (fun s => s.day = d) = false →
      ((add_streak_data db msg ts oracle).1.streaks.any
        (fun s => s.day = d)) = false := by
  have hfst : (add_streak_data db msg ts oracle).1 = db := by
    unfold add_streak_data at h ⊢
    cases hp : parse_message msg with
    | error e' => simp [hp]
    | ok parsed =>
      simp only [hp] at h ⊢
      by_cases h0 : oracle 0 = true
      · simp [h0]
      · simp only [Bool.not_eq_true] at h0
        simp only [h0, Bool.false_eq_true, if_false] at h ⊢
        cases hr : runResultLoop
            { db with streaks := insertStreakIgnore db.streaks parsed.day ts }
            parsed.day parsed.results oracle 1 with
        | error u => simp [hr]
        | ok p2 => rw [hr] at h; simp at h
  refine ⟨hfst, ?_⟩
  intro d hd
  rw [hfst]
  exact hd

/-- Witness for C2 at the spec's own scenario: a message carrying five
parsed results, with the simulated storage fault hitting the first write
of the third result; the call errors and the (initially empty) store is
returned unchanged — in particular no StreakDay row for day 1 exists. -/
theorem C2_rollback_all_or_nothing_witness :
    (add_streak_data ⟨[], [], []⟩ "1 day streak 2/6: @a@b@c@d@e" 9
        (fun k => k = 5)).2 = .error "storage error" ∧
    (add_streak_data ⟨[], [], []⟩ "1 day streak 2/6: @a@b@c@d@e" 9
        (fun k => k = 5)).1 = (⟨[], [], []⟩ : DB) := by
  refine ⟨by decide, ?_⟩
  exact (C2_rollback_all_or_nothing ⟨[], [], []⟩ "1 day streak 2/6: @a@b@c@d@e"
    9 (fun k => k = 5) "storage error" (by decide)).1

/-- C3.  Ingesting a message whose day already has a StreakDay row leaves
the `streaks` table entirely unchanged (so no second row is created and
the existing row keeps its imported timestamp), does not fail, and still
applies the message's Results: the final `results` table is the fold of
the per-result upserts over the prior table. -/
theorem C3_day_exists_frame (db : DB) (msg : String) (ts : Nat)
    (parsed : ParsedStreak)
    (hp : parse_message msg = .ok parsed)
    (hday : db.streaks.any (fun s => s.day = parsed.day) = true) :
    (add_streak_data db msg ts noFault).1.streaks = db.streaks ∧
    (add_streak_data db msg ts noFault).2 =
      .ok ⟨parsed.day,
        countResultsForDay (add_streak_data db msg ts noFault).1 parsed.day,
        parsed.results.map (fun r => r.username)⟩ ∧
    (add_streak_data db msg ts noFault).1.results =
      parsed.results.foldl
        (fun acc r => upsertResult acc parsed.day r.username r.score
          r.is_winner)
        db.results := by
  have hignore : insertStreakIgnore db.streaks parsed.day ts = db.streaks := by
    unfold insertStreakIgnore
    rw [hday]
    simp
  simp only [add_streak_data, hp, noFault, if_neg Bool.false_ne_true,
    runResultLoop_noFault, hignore]
  refine ⟨?_, by trivial, ?_⟩
  · exact foldl_ingest_streaks _ _ _
  · exact foldl_ingest_results _ _ _

/-- Witness for C3: day 5 already has a row with timestamp 77; re-ingesting
a day-5 message succeeds, keeps that row as the only day-5 row, and adds
the message's result. -/
theorem C3_day_exists_frame_witness :
    (add_streak_data ⟨["Zoe"], [⟨5, 77⟩], [⟨5, "Zoe", "2", false⟩]⟩
        "5 day streak\n3/6: @Alice" 900 noFault).1.streaks = [⟨5, 77⟩] ∧
    (add_streak_data ⟨["Zoe"], [⟨5, 77⟩], [⟨5, "Zoe", "2", false⟩]⟩
        "5 day streak\n3/6: @Alice" 900 noFault).1.results =
      [⟨5, "Zoe", "2", false⟩, ⟨5, "Alice", "3", false⟩] := by
  have h := C3_day_exists_frame
    ⟨["Zoe"], [⟨5, 77⟩], [⟨5, "Zoe", "2", false⟩]⟩
    "5 day streak\n3/6: @Alice" 900 ⟨5, [⟨"Alice", "3", false⟩]⟩
    (by decide) (by decide)
  refine ⟨h.1, ?_⟩
  rw [h.2.2]
  decide

/-- C5.  A message with no day-streak marker makes ingestion fail with the
parse error and perform no mutation: `add_streak_data` returns the store
unchanged together with the `ValueError` message, whatever the
storage-fault oracle does (the connection is never opened).  Moreover the
missing marker is the only fatal parse condition: any message whose text
does contain a marker parses successfully — all other fragment anomalies
are absorbed. -/
theorem C5_parse_error_no_mutation (db : DB) (msg : String) (ts : Nat)
    (oracle : Nat → Bool)
    (h : findStreakDay msg.toList = none) :
    add_streak_data db msg ts oracle =
      (db, .error "Could not find streak day in message") ∧
    ∀ (msg' : String) (d : Nat), findStreakDay msg'.toList = some d →
      parse_message msg' =
        .ok ⟨d, ((findAllBlocks (msg'.toList.length + 1) msg'.toList).map
          (fun b => processBlock b.1 b.2.1 b.2.2)).flatten⟩ := by
  constructor
  · unfold add_streak_data parse_message
    rw [h]
  · intro msg' d hd
    unfold parse_message
    rw [hd]

/-- Witness for C5: the store survives an unparseable message untouched,
and a message with a marker but malformed fragments still parses. -/
theorem C5_parse_error_no_mutation_witness :
    add_streak_data ⟨["a"], [⟨1, 2⟩], []⟩ "hello world" 3 noFault =
      (⟨["a"], [⟨1, 2⟩], []⟩, .error "Could not find streak day in message") ∧
    parse_message "9 day streak 5/6: no at-sign here" = .ok ⟨9, []⟩ := by
  have h := C5_parse_error_no_mutation ⟨["a"], [⟨1, 2⟩], []⟩ "hello world" 3
    noFault (by decide)
  refine ⟨h.1, ?_⟩
  rw [h.2 "9 day streak 5/6: no at-sign here" 9 (by decide)]
  decide

/-- C9.  Deleting a StreakDay is atomic.  On success (`true`) all Results
whose `streak_day` equals the day are removed together with the StreakDay
row — the final tables are exactly the prior tables filtered — and on any
failure (`false`: absent day, or either `DELETE` raising) the store is
returned exactly as it was.  No reachable final state has the Results
gone but the StreakDay row still present, or vice versa. -/
theorem C9_delete_day_atomic (db : DB) (day : Nat) (oracle : Nat → Bool) :
    ((delete_day db day oracle).2 = true →
      (delete_day db day oracle).1.results =
        db.results.filter (fun r => !(r.day = day)) ∧
      (delete_day db day oracle).1.streaks =
        db.streaks.filter (fun s => !(s.day = day))) ∧
    ((delete_day db day oracle).2 = false →
      (delete_day db day oracle).1 = db) := by
  unfold delete_day
  by_cases hex : db.streaks.any (fun s => s.day = day) = true
  · by_cases h0 : oracle 0 = true
    · simp [hex, h0]
    · by_cases h1 : oracle 1 = true
      · simp [hex, h0, h1]
      · simp [hex, h0, h1]
  · simp only [Bool.not_eq_true] at hex
    simp [hex]

/-- Witness for C9: a successful deletion filters both tables, and a
fault during the second `DELETE` leaves the store untouched. -/
theorem C9_delete_day_atomic_witness :
    (delete_day ⟨["a"], [⟨3, 7⟩, ⟨4, 8⟩], [⟨3, "a", "2", false⟩]⟩ 3
        noFault).1.results = [] ∧
    (delete_day ⟨["a"], [⟨3, 7⟩, ⟨4, 8⟩], [⟨3, "a", "2", false⟩]⟩ 3
        noFault).1.streaks = [⟨4, 8⟩] ∧
    (delete_day ⟨["a"], [⟨3, 7⟩, ⟨4, 8⟩], [⟨3, "a", "2", false⟩]⟩ 3
        (fun k => k = 1)).1 =
      (⟨["a"], [⟨3, 7⟩, ⟨4, 8⟩], [⟨3, "a", "2", false⟩]⟩ : DB) := by
  have hok := (C9_delete_day_atomic
    ⟨["a"], [⟨3, 7⟩, ⟨4, 8⟩], [⟨3, "a", "2", false⟩]⟩ 3 noFault).1 (by decide)
  have hfail := (C9_delete_day_atomic
    ⟨["a"], [⟨3, 7⟩, ⟨4, 8⟩], [⟨3, "a", "2", false⟩]⟩ 3 (fun k => k = 1)).2
    (by decide)
  refine ⟨?_, ?_, hfail⟩
  · rw [hok.1]; decide
  · rw [hok.2]; decide

/-- C10.  The `results_added` field of a successful ingestion's summary is
the post-commit `SELECT COUNT(*)` over all stored Results for that day —
prior ingestions of the same day included — not the number of results in
the message.  The second conjunct exhibits this: after day 5 is ingested
with Alice's result, ingesting a day-5 message containing the single
result for Bob reports `results_added = 2`. -/
theorem C10_results_added_is_day_total (db : DB) (msg : String) (ts : Nat)
    (summ : IngestSummary)
    (h : (add_streak_data db msg ts noFault).2 = .ok summ) :
    summ.results_added =
      countResultsForDay (add_streak_data db msg ts noFault).1 summ.day ∧
    (add_streak_data
        ((add_streak_data ⟨[], [], []⟩ "5 day streak\n3/6: @Alice" 0
          noFault).1)
        "5 day streak\n4/6: @Bob" 1 noFault).2 =
      .ok ⟨5, 2, ["Bob"]⟩ := by
  refine ⟨?_, by decide⟩
  cases hp : parse_message msg with
  | error e =>
    have herr : (add_streak_data db msg ts noFault).2 = .error e := by
      unfold add_streak_data
      rw [hp]
    rw [herr] at h
    exact absurd h (by simp)
  | ok parsed =>
    rw [add_streak_data_noFault db msg ts parsed hp] at h ⊢
    simp only [Except.ok.injEq] at h
    rw [← h]

/-- C4, counterexample.  The claim reads the day marker as case-insensitive
on the word "streak"; the code's pattern `r'(\d+) day streak'` carries no
`re.IGNORECASE` flag.  On the input `"7 day STREAK"` the claimed
(case-insensitive) reading locates day 7, while the parser raises its
`ValueError`. -/
theorem C4_counterexample :
    findStreakDayCI "7 day STREAK".toList = some 7 ∧
    parse_message "7 day STREAK" =
      .error "Could not find streak day in message" := by
  decide

/-- C4, amended.  The parser locates the marker `<integer> day streak`
matching the text case-SENSITIVELY (all lowercase), with digits only for
the number, and when several markers appear only the first (leftmost)
match supplies the day number: the scan succeeds with `n` exactly when
some position matches the marker with number `n` and no earlier position
matches at all. -/
theorem C4_day_marker_first_match (l : List Char) (n : Nat) :
    findStreakDay l = some n ↔
      ∃ i, tryDayMarker (l.drop i) = some n ∧
        ∀ j < i, tryDayMarker (l.drop j) = none := by
  induction l with
  | nil =>
    constructor
    · intro h
      exact absurd h (by simp [findStreakDay])
    · rintro ⟨i, hi, -⟩
      rw [List.drop_nil, show tryDayMarker [] = none from rfl] at hi
      cases hi
  | cons c cs ih =>
    cases hm : tryDayMarker (c :: cs) with
    | some m =>
      have hfind : findStreakDay (c :: cs) = some m := by
        simp only [findStreakDay, hm]
      constructor
      · intro h
        rw [hfind, Option.some.injEq] at h
        subst h
        exact ⟨0, by rwa [List.drop_zero],
          fun j hj => absurd hj (Nat.not_lt_zero j)⟩
      · rintro ⟨i, hi, hall⟩
        cases i with
        | zero =>
          rw [List.drop_zero, hm] at hi
          rw [hfind, hi]
        | succ i' =>
          have h0 := hall 0 (Nat.succ_pos i')
          rw [List.drop_zero, hm] at h0
          cases h0
    | none =>
      have heq : findStreakDay (c :: cs) = findStreakDay cs := by
        simp only [findStreakDay, hm]
      rw [heq, ih]
      constructor
      · rintro ⟨i, hi, hall⟩
        refine ⟨i + 1, by rwa [List.drop_succ_cons], fun j hj => ?_⟩
        cases j with
        | zero => rwa [List.drop_zero]
        | succ j' =>
          rw [List.drop_succ_cons]
          exact hall j' (by omega)
      · rintro ⟨i, hi, hall⟩
        cases i with
        | zero =>
          rw [List.drop_zero, hm] at hi
          cases hi
        | succ i' =>
          rw [List.drop_succ_cons] at hi
          refine ⟨i', hi, fun j hj => ?_⟩
          have := hall (j + 1) (by omega)
          rwa [List.drop_succ_cons] at this

/-- Witness for C4's amended theorem: the marker at position 1 is the
first one, and the later `9 day streak` is ignored. -/
theorem C4_day_marker_first_match_witness :
    findStreakDay "x7 day streakx 9 day streak".toList = some 7 :=
  (C4_day_marker_first_match "x7 day streakx 9 day streak".toList 7).mpr
    ⟨1, by decide, by decide⟩

/-- C6.  Evaluation of the parser at the claim's exact input.  The claim
(and the spec's test vector) expect `winner = true` for Alice and Bob
because of the leading crown glyph `U+1F451`; the code returns
`winner = false` for all three users, because the crown literal inside
`score_pattern` is the mojibake sequence `U+F8FF 'ü' 'ë' 'ë'` — the crown
emoji's UTF-8 bytes mis-decoded as Mac Roman — which the real crown emoji
never matches.  The second conjunct shows the same message carrying the
mojibake sequence instead of the emoji does get `winner = true`,
confirming that the crown logic itself is the intended one and only the
corrupted literal diverges. -/
theorem C6_crown_glyph_divergence :
    parse_message "42 day streak\n👑 3/6: @Alice@Bob 5/6: @Carol" =
      .ok ⟨42, [⟨"Alice", "3", false⟩, ⟨"Bob", "3", false⟩,
        ⟨"Carol", "5", false⟩]⟩ ∧
    parse_message ("42 day streak\n" ++ (⟨crownSeq⟩ : String) ++
        " 3/6: @Alice@Bob 5/6: @Carol") =
      .ok ⟨42, [⟨"Alice", "3", true⟩, ⟨"Bob", "3", true⟩,
        ⟨"Carol", "5", false⟩]⟩ := by
  decide

/-- C7, counterexample.  The claim says every average-score aggregation
excludes `X` from the numeric mean.  For the result set `["3", "X"]` the
excluded mean is 3, but the web dashboard's per-user `average_score`
(`get_all_time_stats`) computes 5: it feeds `X` into the mean as 7. -/
theorem C7_counterexample :
    average_score ["3", "X"] ≠
      meanOrZero ((["3", "X"].filter (fun s => !(s = "X"))).map
        score_to_numeric) ∧
    meanOrZero ((["3", "X"].filter (fun s => !(s = "X"))).map
      score_to_numeric) = 3 ∧
    average_score ["3", "X"] = 5 := by
  have e1 : score_to_numeric "3" = 3 := by decide
  have e2 : score_to_numeric "X" = 7 := by decide
  have h5 : average_score ["3", "X"] = 5 := by
    simp [average_score, meanOrZero, e1, e2]
    norm_num
  have h3 : meanOrZero ((["3", "X"].filter (fun s => !(s = "X"))).map
      score_to_numeric) = 3 := by
    simp [meanOrZero, e1]
  refine ⟨?_, h3, h5⟩
  rw [h5, h3]
  norm_num

/-- C7, amended.  The per-day statistics of `show_day_data` do exclude `X`
from the numeric mean while counting it separately as a failure:
appending an `X` result to any result set leaves the printed average
unchanged and increments the failure count by one.  The all-time
per-user `average_score` of the web dashboard, by contrast, includes `X`
in the mean as the numeric value 7 (last conjunct, at the result set
`["3", "X"]`). -/
theorem C7_x_exclusion_amended :
    (∀ (results : List DayResult) (u : String) (w : Bool),
      show_day_avg (results ++ [(u, "X", w)]) = show_day_avg results ∧
      show_day_failed (results ++ [(u, "X", w)]) =
        show_day_failed results + 1) ∧
    average_score ["3", "X"] = 5 := by
  refine ⟨fun results u w => ⟨?_, ?_⟩, ?_⟩
  case refine_3 =>
    have e1 : score_to_numeric "3" = 3 := by decide
    have e2 : score_to_numeric "X" = 7 := by decide
    simp [average_score, meanOrZero, e1, e2]
    norm_num
  · simp [show_day_avg, show_day_successful, List.filter_append]
  · simp [show_day_failed, List.filter_append]

/-- Witness for C10: a fresh store ingesting one day-5 result reports the
day's total of 1. -/
theorem C10_results_added_is_day_total_witness :
    (⟨5, 1, ["Alice"]⟩ : IngestSummary).results_added =
      countResultsForDay
        (add_streak_data ⟨[], [], []⟩ "5 day streak\n3/6: @Alice" 0
          noFault).1
        (⟨5, 1, ["Alice"]⟩ : IngestSummary).day :=
  (C10_results_added_is_day_total ⟨[], [], []⟩ "5 day streak\n3/6: @Alice" 0
    ⟨5, 1, ["Alice"]⟩ (by decide)).1

/-- Helper for C8: the loop-built gap list is the same as filtering the
consecutive-pair differences down to those exceeding 1. -/
theorem computeGaps_eq_zip (days : List Int) :
    computeGaps days =
      ((days.zip days.tail).map (fun p => p.2 - p.1)).filterMap
        (fun d => if 1 < d then some (d - 1) else none) := by
  induction days with
  | nil => rfl
  | cons a rest ih =>
    cases rest with
    | nil => rfl
    | cons b r2 =>
      by_cases h : (1 : Int) < b - a
      · simp [computeGaps, h, ih]
      · simp [computeGaps, h, ih]

/-- Helper for C8: a fully consecutive day history records no gaps. -/
theorem computeGaps_chain (days : List Int)
    (h : List.Chain' (fun a b => b = a + 1) days) : computeGaps days = [] := by
  induction days with
  | nil => rfl
  | cons a rest ih =>
    cases rest with
    | nil => rfl
    | cons b r2 =>
      rw [List.chain'_cons] at h
      obtain ⟨hab, hrest⟩ := h
      have hng : ¬ ((1 : Int) < b - a) := by omega
      simp only [computeGaps, gt_iff_lt, if_neg hng]
      exact ih hrest

/-- C8, counterexample.  The claim's consistency formula `1 / (1 + g)`
with `g` the average gap over the user's consecutive played days gives
`2/3` for the played days `[1, 2, 4]` (gaps 0 and 1, average `1/2`), but
the code computes `1/2`: its `avg_gap` averages only over the
strictly-positive gaps (here the single gap of 1). -/
theorem C8_counterexample :
    consistency_score [1, 2, 4] ≠ 1 / (1 + claimAvgGap [1, 2, 4]) ∧
    consistency_score [1, 2, 4] = 1 / 2 ∧
    1 / (1 + claimAvgGap [1, 2, 4]) = 2 / 3 := by
  have ha : consistency_score [1, 2, 4] = 1 / 2 := by
    norm_num [consistency_score, computeGaps, meanIntOrZero]
  have hb : (1 : ℚ) / (1 + claimAvgGap [1, 2, 4]) = 2 / 3 := by
    norm_num [claimAvgGap, meanIntOrZero]
  refine ⟨?_, ha, hb⟩
  rw [ha, hb]
  norm_num

/-- C8, amended.  The per-user consistency score equals `1 / (1 + g)`
where `g` is the average of `d - 1` over only those consecutive-pair
differences `d` of the user's played days that exceed 1 (`g = 0` when
there is no such difference).  In particular a single-day or fully
consecutive history — where the code and the claim agree — scores
exactly 1. -/
theorem C8_consistency_amended (days : List Int) :
    consistency_score days =
      1 / (1 + meanIntOrZero
        (((days.zip days.tail).map (fun p => p.2 - p.1)).filterMap
          (fun d => if 1 < d then some (d - 1) else none))) ∧
    (List.Chain' (fun a b => b = a + 1) days →
      consistency_score days = 1) := by
  constructor
  · unfold consistency_score
    rw [computeGaps_eq_zip]
  · intro h
    unfold consistency_score
    rw [computeGaps_chain days h]
    norm_num [meanIntOrZero]

/-- Witness for C8's amended theorem at the consecutive history
`[3, 4, 5]`. -/
theorem C8_consistency_amended_witness : consistency_score [3, 4, 5] = 1 :=
  (C8_consistency_amended [3, 4, 5]).2
    (by simp [List.chain'_cons, List.chain'_singleton])
